import Mathlib

/-!
Shallow embedding of the cross-thread task-dispatch mechanism implemented in
`src/controller/python/chip/ChipStack.py` of the CHIP python controller.

Conventions of the embedding:
* A task callback `callFunct` is represented by the outcome of invoking it
  once: a value `cb : Except E V`, where `Except.ok v` means the call returns
  the value `v` and `Except.error e` means the call raises the exception
  object `e`.
* Python object slots initialised to `None` are `Option`-valued, with `none`
  standing for Python `None`.
* `PyChipError` values returned by the native library are represented by
  their numeric code; `is_success` is `code == 0` and `to_exception()` is
  `PyExc.chipStackError code`.
* Manual reference counting (`Py_IncRef` / `Py_DecRef` on the handle object)
  is tracked as a net integer delta `refDelta` relative to the refcount the
  handle had before the modelled operation started.
* Thread interleavings are resolved by explicit environment schedules:
  `WaitEv` lists drive the wake-ups of `Condition.wait`, `Bool` lists give
  the successive values observed by `Event.isSet`, and a `resolveTime`
  places the resolution of an asyncio future on a time axis (in seconds)
  for `asyncio.wait_for`.
-/

namespace ChipStackModel

variable {V E : Type}

/-- Python exception objects that can propagate out of the modelled code:
`userExc e` is the exception object raised by the task callback itself,
re-raised verbatim; `timeoutError` is `TimeoutError` (including the asyncio
variant); `chipStackError code` is the `ChipStackError` produced by
`PyChipError.to_exception()` for native status `code` (the only
submission-failure exception type in the module); `noneAttrError` is the
`AttributeError` raised by an attribute access on a field that `Shutdown`
set to `None`; `noneCtxError` is the error raised by entering `with None:`
after `Shutdown` cleared `networkLock`. -/
inductive PyExc (E : Type) where
  | userExc (e : E)
  | timeoutError
  | chipStackError (code : Nat)
  | noneAttrError
  | noneCtxError
deriving DecidableEq, Repr

/-- State of `AsyncCallableHandle` (ChipStack.py lines 124-131): a one-shot
blocking result container.  `callback` is the outcome of invoking the
wrapped `_callback` once; `res`, `exc`, `finish` model the slots `_res`,
`_exc`, `_finish` (initialised to `None`, `None`, `False`).  The condition
variable `_cv` and its lock are modelled by the `WaitEv` schedules consumed
by `waitLoop` below. -/
structure AsyncCallableHandle (V E : Type) where
  callback : Except E V
  res : Option V
  exc : Option E
  finish : Bool
deriving Repr

/-- Constructor `AsyncCallableHandle.__init__` (lines 125-131). -/
def AsyncCallableHandle.new (cb : Except E V) : AsyncCallableHandle V E :=
  { callback := cb, res := none, exc := none, finish := false }

/-- Body of the completion trampoline `AsyncCallableHandle.__call__`
(lines 133-140), without the trailing `Py_DecRef` (that refcount effect is
accounted separately by the callers of this definition): under the lock,
run the callback, storing its return value in `_res` on success or the
raised exception in `_exc`, set `_finish` to `True` and notify all
waiters. -/
def AsyncCallableHandle.call (h : AsyncCallableHandle V E) : AsyncCallableHandle V E :=
  match h.callback with
  | .ok v => { h with res := some v, finish := true }
  | .error e => { h with exc := some e, finish := true }

/-- Environment behaviour at one `Condition.wait` call inside
`AsyncCallableHandle.Wait`: `complete` means the runtime thread ran the
trampoline and notified, so the wait returns `True` with `_finish` now set;
`spurious` means the waiter woke without completion (wait returns `True`);
`timedOut` means the wait timed out and returns `False` (impossible when
the timeout argument is `None`, in which case it is treated as a plain
wake-up). -/
inductive WaitEv where
  | complete
  | spurious
  | timedOut
deriving DecidableEq, Repr

/-- Observation made by `Wait` once `_finish` is set (lines 154-156):
re-raise `_exc` when it is not `None`, otherwise return `_res`. -/
def finishObserve (h : AsyncCallableHandle V E) : Except (PyExc E) (Option V) :=
  match h.exc with
  | some e => .error (.userExc e)
  | none => .ok h.res

/-- Outcome of a `Wait` run.  `result` is `none` when the environment
schedule was exhausted while the waiter was still blocked; otherwise it is
the returned value or the raised exception.  `timeoutsPassed` records, in
order, the timeout argument handed to each `Condition.wait` call.
`trampolineRuns` counts the trampoline executions that happened during the
wait (driven by `WaitEv.complete` events). -/
structure WaitOutcome (V E : Type) where
  result : Option (Except (PyExc E) (Option V))
  timeoutsPassed : List (Option Rat)
  trampolineRuns : Nat
deriving Repr

/-- The wait loop of `AsyncCallableHandle.Wait` (lines 148-153):
`while self._finish is False:` call `self._cv.wait(timeout)` and raise
`TimeoutError` when that call returns `False`.  The single `timeout` value
computed once at entry is the argument passed to every `Condition.wait`
call.  `evs` is the environment schedule. -/
def waitLoop (timeout : Option Rat) (h : AsyncCallableHandle V E) :
    List WaitEv → WaitOutcome V E
  | [] =>
    if h.finish then
      { result := some (finishObserve h), timeoutsPassed := [], trampolineRuns := 0 }
    else
      { result := none, timeoutsPassed := [], trampolineRuns := 0 }
  | ev :: rest =>
    if h.finish then
      { result := some (finishObserve h), timeoutsPassed := [], trampolineRuns := 0 }
    else
      match ev with
      | WaitEv.timedOut =>
        match timeout with
        | some tmo =>
          { result := some (.error .timeoutError), timeoutsPassed := [some tmo],
            trampolineRuns := 0 }
        | none =>
          let o := waitLoop timeout h rest
          { result := o.result, timeoutsPassed := timeout :: o.timeoutsPassed,
            trampolineRuns := o.trampolineRuns }
      | WaitEv.complete =>
        let o := waitLoop timeout (AsyncCallableHandle.call h) rest
        { result := o.result, timeoutsPassed := timeout :: o.timeoutsPassed,
          trampolineRuns := 1 + o.trampolineRuns }
      | WaitEv.spurious =>
        let o := waitLoop timeout h rest
        { result := o.result, timeoutsPassed := timeout :: o.timeoutsPassed,
          trampolineRuns := o.trampolineRuns }

/-- Method `AsyncCallableHandle.Wait(timeoutMs)` (lines 143-156): convert
`timeoutMs` milliseconds to seconds once (`float(timeoutMs) / 1000`;
`None` stays `None`), then run the wait loop.  There is no `Py_DecRef`
anywhere in `Wait`: the handle is never freed by `Wait`, in particular not
on the `TimeoutError` path. -/
def AsyncCallableHandle.Wait (h : AsyncCallableHandle V E) (timeoutMs : Option Nat)
    (evs : List WaitEv) : WaitOutcome V E :=
  waitLoop (timeoutMs.map (fun t => (t : Rat) / 1000)) h evs

/-- Outcome of `ChipStack.PostTaskOnChipThread`: the returned handle or the
raised exception, the number of times the task callback body ran during the
operation, and the net refcount delta on the handle. -/
structure PostOutcome (V E : Type) where
  result : Except (PyExc E) (AsyncCallableHandle V E)
  execCount : Nat
  refDelta : Int
deriving Repr

/-- Method `ChipStack.PostTaskOnChipThread(callFunct)` (lines 416-428).
`libLoaded` says whether `self._ChipStackLib` is not `None` (it is `None`
after `Shutdown`); `postStatus` is the `PyChipError` code returned by the
native `pychip_DeviceController_PostTaskOnChipThread`.  The method builds
an `AsyncCallableHandle`, takes an extra reference (`Py_IncRef`, +1), then
makes the native call.  On a non-success status it releases the extra
reference immediately (`Py_DecRef`, net 0) and raises
`res.to_exception()`; on success it returns the handle with the extra
reference still held (+1), to be released only by the trampoline.  When
the library slot is `None`, the attribute access raises after the extra
reference was already taken.  The callback body never runs inside this
method (`execCount = 0` on every path). -/
def ChipStack.PostTaskOnChipThread (libLoaded : Bool) (postStatus : Nat)
    (cb : Except E V) : PostOutcome V E :=
  if libLoaded = false then
    { result := .error .noneAttrError, execCount := 0, refDelta := 1 }
  else if postStatus = 0 then
    { result := .ok (AsyncCallableHandle.new cb), execCount := 0, refDelta := 1 }
  else
    { result := .error (.chipStackError postStatus), execCount := 0, refDelta := 0 }

/-- Outcome of `Call` and `CallAsync`: the value returned to the caller or
the exception raised (`none` when still blocked at the end of the
schedule), the number of task-callback executions, and the net refcount
delta on the handle. -/
structure CallOutcome (V E : Type) where
  result : Option (Except (PyExc E) (Option V))
  execCount : Nat
  refDelta : Int
deriving Repr

/-- Method `ChipStack.Call(callFunct, timeoutMs)` (lines 365-373):
`with self.networkLock: res = self.PostTaskOnChipThread(callFunct).Wait(timeoutMs)`.
`networkLockPresent` says whether `self.networkLock` is not `None` (it is
`None` after `Shutdown`, and entering `with None:` raises).
`preCompleted` selects the interleaving in which the runtime thread runs
the trampoline before `Wait` first checks `_finish`; otherwise trampoline
execution is driven by `WaitEv.complete` events of the schedule.  Each
trampoline run executes the callback once and performs the trailing
`Py_DecRef` of `__call__` (refDelta minus 1 per run). -/
def ChipStack.Call (networkLockPresent libLoaded : Bool) (postStatus : Nat)
    (cb : Except E V) (timeoutMs : Option Nat) (preCompleted : Bool)
    (evs : List WaitEv) : CallOutcome V E :=
  if networkLockPresent = false then
    { result := some (.error .noneCtxError), execCount := 0, refDelta := 0 }
  else
    let post := ChipStack.PostTaskOnChipThread libLoaded postStatus cb
    match post.result with
    | .error e =>
      { result := some (.error e), execCount := post.execCount, refDelta := post.refDelta }
    | .ok h =>
      let h1 := if preCompleted then AsyncCallableHandle.call h else h
      let pre : Nat := if preCompleted then 1 else 0
      let o := h1.Wait timeoutMs evs
      { result := o.result, execCount := pre + o.trampolineRuns,
        refDelta := post.refDelta - (pre : Int) - (o.trampolineRuns : Int) }

/-- State of `AsyncioCallableHandle` (lines 159-185): `callback` is the
outcome of invoking the wrapped `_callback` once; `result` and `exception`
model the slots `_result` and `_exception` (initialised to `None`). -/
structure AsyncioCallableHandle (V E : Type) where
  callback : Except E V
  result : Option V
  exception : Option E
deriving Repr

/-- Constructor `AsyncioCallableHandle.__init__` (lines 162-167). -/
def AsyncioCallableHandle.new (cb : Except E V) : AsyncioCallableHandle V E :=
  { callback := cb, result := none, exception := none }

/-- Body of `AsyncioCallableHandle.__call__` (lines 179-185) without the
trailing `Py_DecRef`: run the callback, storing its return value in
`_result` or the raised exception in `_exception`, then schedule `_done`
on the caller loop via `call_soon_threadsafe`. -/
def AsyncioCallableHandle.call (h : AsyncioCallableHandle V E) : AsyncioCallableHandle V E :=
  match h.callback with
  | .ok v => { h with result := some v }
  | .error e => { h with exception := some e }

/-- Method `AsyncioCallableHandle._done` (lines 173-177), run on the caller
loop: resolve the future with the stored exception when one is present
(`if self._exception:`), otherwise with the stored result. -/
def AsyncioCallableHandle.done (h : AsyncioCallableHandle V E) : Except E (Option V) :=
  match h.exception with
  | some e => .error e
  | none => .ok h.result

/-- Timeout handed to `asyncio.wait_for` by `CallAsync` (line 389):
`timeoutMs / 1000 if timeoutMs else None`.  Python truthiness makes both
`None` and `0` falsy, so `timeoutMs = 0` yields `None`, meaning no timeout
at all. -/
def callAsyncWaitTimeout (timeoutMs : Option Nat) : Option Rat :=
  match timeoutMs with
  | none => none
  | some t => if t = 0 then none else some ((t : Rat) / 1000)

/-- Model of `asyncio.wait_for(future, timeout)` for a future resolved at
time `resolveTime` (seconds after the await started) with outcome `fut`:
with timeout `None` the await waits indefinitely and reports the
resolution; with timeout `T` it raises `TimeoutError` when the future
resolves later than `T`. -/
def waitFor (timeout : Option Rat) (resolveTime : Rat) (fut : Except E (Option V)) :
    Except (PyExc E) (Option V) :=
  let observe : Except (PyExc E) (Option V) :=
    match fut with
    | .ok v => .ok v
    | .error e => .error (.userExc e)
  match timeout with
  | none => observe
  | some T => if resolveTime ≤ T then observe else .error .timeoutError

/-- Method `ChipStack.CallAsync(callFunct, timeoutMs)` (lines 375-389):
build an `AsyncioCallableHandle`, take the extra reference (`Py_IncRef`),
make the native `pychip_DeviceController_PostTaskOnChipThread` call; on a
non-success status release the extra reference immediately and raise
`res.to_exception()`; on success, await
`asyncio.wait_for(callObj.future, ...)`.  On the success path the posted
trampoline eventually runs the callback exactly once and releases the
extra reference (`execCount = 1`, `refDelta = 0`), even when the await
itself times out first.  When the library slot is `None` the attribute
access raises after the extra reference was taken. -/
def ChipStack.CallAsync (libLoaded : Bool) (postStatus : Nat) (cb : Except E V)
    (timeoutMs : Option Nat) (resolveTime : Rat) : CallOutcome V E :=
  if libLoaded = false then
    { result := some (.error .noneAttrError), execCount := 0, refDelta := 1 }
  else if postStatus = 0 then
    let h := AsyncioCallableHandle.call (AsyncioCallableHandle.new cb)
    { result := some (waitFor (callAsyncWaitTimeout timeoutMs) resolveTime h.done),
      execCount := 1, refDelta := 0 }
  else
    { result := some (.error (.chipStackError postStatus)), execCount := 0, refDelta := 0 }

/-- Value stored in `self.callbackRes`: Python `None`, a
`ChipStackException` carrying a native status (the `isinstance` test at
line 412 distinguishes exactly this case), or any other value. -/
inductive CallbackRes (V : Type) where
  | pyNone
  | stackExc (code : Nat)
  | value (v : V)
deriving DecidableEq, Repr

/-- Mutable `ChipStack` singleton state relevant to the dispatcher:
`completeEvent` is the set-flag of the `Event`; `completeEventPresent`,
`networkLockPresent` and `libLoaded` say whether `self.completeEvent`,
`self.networkLock` and `self._ChipStackLib` are not `None` (all three are
set to `None` by `Shutdown`); `blockingCB` says whether `self.blockingCB`
is registered; `callbackRes` models `self.callbackRes`. -/
structure ChipStackState (V : Type) where
  completeEvent : Bool
  completeEventPresent : Bool
  networkLockPresent : Bool
  libLoaded : Bool
  blockingCB : Bool
  callbackRes : CallbackRes V
  enableServerInteractions : Bool
deriving DecidableEq, Repr

/-- Fields assigned by `ChipStack.__init__` (lines 195-286) that this model
tracks: a fresh (clear) `completeEvent`, live lock, event and library
slots, `callbackRes = None`, `blockingCB = None`, and the
`enableServerInteractions` constructor argument. -/
def ChipStack.init (enableServerInteractions : Bool) : ChipStackState V :=
  { completeEvent := false, completeEventPresent := true, networkLockPresent := true,
    libLoaded := true, blockingCB := false, callbackRes := .pyNone,
    enableServerInteractions := enableServerInteractions }

/-- Effect of `ChipStack.Shutdown` (lines 338-363) on the tracked fields:
`networkLock`, `completeEvent` and `_ChipStackLib` are set to `None`, and
`callbackRes` is set to `None`. -/
def ChipStack.Shutdown (st : ChipStackState V) : ChipStackState V :=
  { st with
    networkLockPresent := false
    completeEventPresent := false
    libLoaded := false
    callbackRes := .pyNone }

/-- The decorator `_singleton` (lines 60-68): `wrapper(*args)` constructs
`cls(*args)` only when the cell `instance[0]` is empty and returns the
cached instance otherwise, ignoring the later arguments.  `slot` is
`instance[0]`; the returned pair is (returned instance, updated cell). -/
def singletonWrapper {Args Inst : Type} (mk : Args → Inst) (slot : Option Inst)
    (args : Args) : Inst × Option Inst :=
  match slot with
  | some i => (i, some i)
  | none => (mk args, some (mk args))

/-- Entry of `ChipStack.CallAsyncWithCompleteCallback` (lines 396-399).
Despite the comment at line 397 (`# throw error if op in progress`), the
code only resets `self.callbackRes = None` and clears
`self.completeEvent`; no in-progress check is performed and no error is
raised.  After `Shutdown` (`completeEvent is None`) the `clear()` call
raises an `AttributeError`, with `callbackRes` already overwritten. -/
def callAsyncWCCEntry (st : ChipStackState V) : ChipStackState V × Option (PyExc E) :=
  if st.completeEventPresent = false then
    ({ st with callbackRes := .pyNone }, some .noneAttrError)
  else
    ({ st with callbackRes := .pyNone, completeEvent := false }, none)

/-- Lines 404-406 of `CallAsyncWithCompleteCallback`: the posted task
returns a `PyChipError` with code `resCode`; on non-success the method sets
the completion event and raises `res.to_exception()`. -/
def wccSubmitCheck (st : ChipStackState V) (resCode : Nat) :
    ChipStackState V × Option (PyExc E) :=
  if resCode = 0 then (st, none)
  else ({ st with completeEvent := true }, some (.chipStackError resCode))

/-- Await loop of `CallAsyncWithCompleteCallback` (lines 407-411):
`while not self.completeEvent.isSet():` invoke `self.blockingCB()` once
when it is registered, then `self.completeEvent.wait(0.05)`.  `checks`
gives the successive values of `completeEvent.isSet()` observed at the
loop guard; the returned trace lists, per executed iteration, the number
of blocking-callback invocations and the interval (in seconds) handed to
`Event.wait`.  The loop has no timeout of its own: it ends only when a
guard check observes the event set (or the schedule is exhausted). -/
def awaitCompletion (blockingCB : Bool) : List Bool → List (Nat × Rat)
  | [] => []
  | isSet :: rest =>
    if isSet then []
    else ((if blockingCB then 1 else 0), (1 / 20 : Rat)) :: awaitCompletion blockingCB rest

/-- Result handling after the loop (lines 412-414): raise `callbackRes`
when it is a `ChipStackException` instance, otherwise return it. -/
def awaitResult (r : CallbackRes V) : Except (PyExc E) (CallbackRes V) :=
  match r with
  | .stackExc code => .error (.chipStackError code)
  | other => .ok other

/-- A list of timeout arguments forms a strictly decreasing remaining
budget when every later wait receives strictly less time than the wait
before it (and no wait is unbounded). -/
def decreasingTimeouts : List (Option Rat) → Bool
  | [] => true
  | [none] => false
  | [some _] => true
  | none :: _ :: _ => false
  | some _ :: none :: _ => false
  | some a :: some b :: rest => (decide (b < a)) && decreasingTimeouts (some b :: rest)

/-! Helper lemmas about the embedded operations. -/

/-- The trampoline always sets the completion flag. -/
theorem AsyncCallableHandle.call_finish (h : AsyncCallableHandle V E) :
    (AsyncCallableHandle.call h).finish = true := by
  cases h with
  | mk cb r e f => cases cb <;> rfl

/-- Once the completion flag is set, the wait loop returns immediately with
the stored observation, consuming no schedule events, passing no timeout to
any wait, and running no trampoline. -/
theorem waitLoop_finished (t : Option Rat) (h : AsyncCallableHandle V E)
    (evs : List WaitEv) (hf : h.finish = true) :
    waitLoop t h evs =
      { result := some (finishObserve h), timeoutsPassed := [], trampolineRuns := 0 } := by
  cases evs <;> simp [waitLoop, hf]

/-- The wait loop runs the trampoline at most once: after a `complete`
event the flag is set and the loop exits at the next guard check. -/
theorem waitLoop_runs_le_one (t : Option Rat) (h : AsyncCallableHandle V E)
    (evs : List WaitEv) : (waitLoop t h evs).trampolineRuns ≤ 1 := by
  induction evs generalizing h with
  | nil => cases hf : h.finish <;> simp [waitLoop, hf]
  | cons ev rest ih =>
    cases hf : h.finish with
    | true => simp [waitLoop, hf]
    | false =>
      cases ev with
      | complete =>
        simp [waitLoop, hf, waitLoop_finished t _ rest (AsyncCallableHandle.call_finish h)]
      | spurious => simpa [waitLoop, hf] using ih h
      | timedOut =>
        cases t with
        | none => simpa [waitLoop, hf] using ih h
        | some tmo => simp [waitLoop, hf]

/-- Every timeout argument handed to a `Condition.wait` call by the wait
loop is the single value computed at entry: the recorded list is a
constant list. -/
theorem waitLoop_timeouts_const (t : Option Rat) (h : AsyncCallableHandle V E)
    (evs : List WaitEv) :
    (waitLoop t h evs).timeoutsPassed =
      List.replicate (waitLoop t h evs).timeoutsPassed.length t := by
  induction evs generalizing h with
  | nil => cases hf : h.finish <;> simp [waitLoop, hf]
  | cons ev rest ih =>
    cases hf : h.finish with
    | true => simp [waitLoop, hf]
    | false =>
      cases ev with
      | complete => simp [waitLoop, hf, List.replicate_succ]; exact ih _
      | spurious => simp [waitLoop, hf, List.replicate_succ]; exact ih h
      | timedOut =>
        cases t with
        | none => simp [waitLoop, hf, List.replicate_succ]; exact ih h
        | some tmo => simp [waitLoop, hf, List.replicate_succ]

/-- Every executed iteration of the completion-await loop performs the same
work: one blocking-callback invocation when registered (none otherwise)
followed by a 0.05-second event wait. -/
theorem awaitCompletion_const (b : Bool) (checks : List Bool) :
    awaitCompletion b checks =
      List.replicate (awaitCompletion b checks).length
        ((if b then 1 else 0), (1 / 20 : Rat)) := by
  induction checks with
  | nil => simp [awaitCompletion]
  | cons c rest ih =>
    cases c
    · simpa [awaitCompletion, List.replicate_succ] using ih
    · simp [awaitCompletion]

/-- The completion-await loop runs one iteration per unset guard check and
never ends on its own: against a schedule of `n` unset checks it performs
exactly `n` iterations. -/
theorem awaitCompletion_false_length (b : Bool) (n : Nat) :
    (awaitCompletion b (List.replicate n false)).length = n := by
  induction n with
  | zero => simp [awaitCompletion]
  | succ n ih => simp [List.replicate_succ, awaitCompletion, ih]

/-! Theorems settling the claims. -/

/-- C1: for every task callback that returns successfully with value `v`,
`Call(task, timeout)` executes the callback exactly once on the runtime
thread and returns `v` to the caller.  On every interleaving the callback
body runs at most once, and on every interleaving in which the posted
trampoline runs (before `Wait` first checks the completion flag, or
signalling the waiter during the wait) `Call` returns exactly `v`, with the
callback executed exactly once and the extra handle reference balanced. -/
theorem c1_call_returns_value (v : V) (timeoutMs : Option Nat) (pre : Bool)
    (evs evs2 evs3 : List WaitEv) :
    (ChipStack.Call (E := E) true true 0 (Except.ok v) timeoutMs pre evs).execCount ≤ 1 ∧
    ChipStack.Call (E := E) true true 0 (Except.ok v) timeoutMs true evs2 =
      { result := some (Except.ok (some v)), execCount := 1, refDelta := 0 } ∧
    ChipStack.Call (E := E) true true 0 (Except.ok v) timeoutMs false (WaitEv.complete :: evs3) =
      { result := some (Except.ok (some v)), execCount := 1, refDelta := 0 } := by
  refine ⟨?_, ?_, ?_⟩
  · cases pre with
    | true =>
      simp [ChipStack.Call, ChipStack.PostTaskOnChipThread, AsyncCallableHandle.Wait,
        waitLoop_finished, AsyncCallableHandle.call_finish, AsyncCallableHandle.call_finish]
    | false =>
      simpa [ChipStack.Call, ChipStack.PostTaskOnChipThread, AsyncCallableHandle.Wait]
        using waitLoop_runs_le_one _ _ evs
  · simp [ChipStack.Call, ChipStack.PostTaskOnChipThread, AsyncCallableHandle.Wait,
      waitLoop_finished, AsyncCallableHandle.call_finish,
      finishObserve, AsyncCallableHandle.call, AsyncCallableHandle.new]
  · simp [ChipStack.Call, ChipStack.PostTaskOnChipThread, AsyncCallableHandle.Wait, waitLoop,
      AsyncCallableHandle.new,
      waitLoop_finished, AsyncCallableHandle.call_finish,
      finishObserve, AsyncCallableHandle.call]

/-- C2: for every task callback that raises an exception `e`, the
completion trampoline captures `e` into the failure slot of the handle, and
`Call(task, timeout)` (via `Wait`) re-raises that same exception `e` to the
caller instead of returning a value, on every interleaving in which the
trampoline runs. -/
theorem c2_call_reraises_exception (e : E) (timeoutMs : Option Nat)
    (evs evs2 : List WaitEv) :
    (AsyncCallableHandle.call (AsyncCallableHandle.new (V := V) (Except.error e))).exc = some e ∧
    ChipStack.Call (V := V) true true 0 (Except.error e) timeoutMs true evs =
      { result := some (Except.error (PyExc.userExc e)), execCount := 1, refDelta := 0 } ∧
    ChipStack.Call (V := V) true true 0 (Except.error e) timeoutMs false (WaitEv.complete :: evs2) =
      { result := some (Except.error (PyExc.userExc e)), execCount := 1, refDelta := 0 } := by
  refine ⟨rfl, ?_, ?_⟩
  · simp [ChipStack.Call, ChipStack.PostTaskOnChipThread, AsyncCallableHandle.Wait,
      waitLoop_finished, AsyncCallableHandle.call_finish,
      finishObserve, AsyncCallableHandle.call, AsyncCallableHandle.new]
  · simp [ChipStack.Call, ChipStack.PostTaskOnChipThread, AsyncCallableHandle.Wait, waitLoop,
      AsyncCallableHandle.new,
      waitLoop_finished, AsyncCallableHandle.call_finish,
      finishObserve, AsyncCallableHandle.call]

/-- C3: after the completion trampoline has run, exactly one of the result
slot and the failure slot holds a written value and the completion flag is
set: the failure slot is non-empty exactly when the callback raised, the
result slot holds the return value of the callback otherwise, and never are
both written.  The same holds for the slots of the asyncio handle variant,
whose `_done` resolution reports the written slot. -/
theorem c3_exactly_one_slot (cb : Except E V) :
    (AsyncCallableHandle.call (AsyncCallableHandle.new cb)).finish = true ∧
    (AsyncCallableHandle.call (AsyncCallableHandle.new cb)).res =
      (match cb with | .ok v => some v | .error _ => none) ∧
    (AsyncCallableHandle.call (AsyncCallableHandle.new cb)).exc =
      (match cb with | .ok _ => none | .error e => some e) ∧
    (AsyncCallableHandle.call (AsyncCallableHandle.new cb)).exc.isSome =
      !(AsyncCallableHandle.call (AsyncCallableHandle.new cb)).res.isSome ∧
    (AsyncioCallableHandle.call (AsyncioCallableHandle.new cb)).result =
      (match cb with | .ok v => some v | .error _ => none) ∧
    (AsyncioCallableHandle.call (AsyncioCallableHandle.new cb)).exception =
      (match cb with | .ok _ => none | .error e => some e) ∧
    (AsyncioCallableHandle.call (AsyncioCallableHandle.new cb)).exception.isSome =
      !(AsyncioCallableHandle.call (AsyncioCallableHandle.new cb)).result.isSome ∧
    (AsyncioCallableHandle.call (AsyncioCallableHandle.new cb)).done =
      (match cb with | .ok v => .ok (some v) | .error e => .error e) := by
  cases cb <;>
    simp [AsyncCallableHandle.call, AsyncCallableHandle.new,
      AsyncioCallableHandle.call, AsyncioCallableHandle.new, AsyncioCallableHandle.done]

/-- C4: when the native post call reports a non-success status, both
`PostTaskOnChipThread` and `CallAsync` release the extra ownership
reference immediately on that failure path (net refcount delta 0) and raise
the submission failure, and the task callback is never executed; on a
success status the extra reference stays held by the returned handle
(delta +1 with the callback not yet run) and is released exactly by the
trampoline when it runs the callback (delta back to 0 with one execution),
never by a wait that times out first (delta still +1, no execution). -/
theorem c4_submission_refcount (cb : Except E V) (code : Nat) (timeoutMs : Option Nat)
    (tms : Nat) (rt : Rat) (evs : List WaitEv) :
    ChipStack.PostTaskOnChipThread true (code + 1) cb =
      { result := .error (.chipStackError (code + 1)), execCount := 0, refDelta := 0 } ∧
    ChipStack.PostTaskOnChipThread true 0 cb =
      { result := .ok (AsyncCallableHandle.new cb), execCount := 0, refDelta := 1 } ∧
    (ChipStack.Call true true 0 cb timeoutMs true evs).execCount = 1 ∧
    (ChipStack.Call true true 0 cb timeoutMs true evs).refDelta = 0 ∧
    (ChipStack.Call true true 0 cb (some tms) false [WaitEv.timedOut]).execCount = 0 ∧
    (ChipStack.Call true true 0 cb (some tms) false [WaitEv.timedOut]).refDelta = 1 ∧
    ChipStack.CallAsync true (code + 1) cb timeoutMs rt =
      { result := some (.error (.chipStackError (code + 1))), execCount := 0, refDelta := 0 } ∧
    (ChipStack.CallAsync true 0 cb timeoutMs rt).execCount = 1 ∧
    (ChipStack.CallAsync true 0 cb timeoutMs rt).refDelta = 0 := by
  refine ⟨?_, ?_, ?_, ?_, ?_, ?_, ?_, ?_, ?_⟩ <;>
    simp [ChipStack.PostTaskOnChipThread, ChipStack.Call, ChipStack.CallAsync,
      AsyncCallableHandle.Wait, waitLoop, AsyncCallableHandle.new,
      waitLoop_finished, AsyncCallableHandle.call_finish]

/-- C5 (evaluation of the code at the failing input): with a previous cycle
still in flight through the shared signal (`completeEvent` cleared by the
first call; here the completion callback of the first cycle has just stored
a result in `callbackRes`), the entry of a second
`CallAsyncWithCompleteCallback` raises no error at all and silently clears
the event and overwrites the shared result slot with `None` -- contradicting
the comment at line 397 of the source (`# throw error if op in progress`)
and the claimed fail-fast contract-violation behaviour. -/
theorem c5_no_inflight_check :
    callAsyncWCCEntry (V := Nat) (E := Nat)
        { completeEvent := false
          completeEventPresent := true
          networkLockPresent := true
          libLoaded := true
          blockingCB := false
          callbackRes := .value 7
          enableServerInteractions := true } =
      ({ completeEvent := false
         completeEventPresent := true
         networkLockPresent := true
         libLoaded := true
         blockingCB := false
         callbackRes := .pyNone
         enableServerInteractions := true }, none) := rfl

/-- C6 counterexample: invoked after `Shutdown`, `Call` does not raise the
submission-failure exception type of the module (`ChipStackError`, the
image of `PyChipError.to_exception()`, modelled by `chipStackError`), nor
any dedicated not-initialised error (the module defines none): it dies on
the cleared `None` field, entering `with None:`.  This refutes the claim
that the post-shutdown failure is a `NotInitialized`/`SubmissionFailed`
error. -/
theorem c6_counterexample :
    (ChipStack.Call (E := Nat)
        (ChipStack.Shutdown (ChipStack.init (V := Nat) true)).networkLockPresent
        (ChipStack.Shutdown (ChipStack.init (V := Nat) true)).libLoaded
        0 (Except.ok 4) none false []).result =
      some (Except.error PyExc.noneCtxError) ∧
    ∀ code : Nat, (PyExc.noneCtxError : PyExc Nat) ≠ PyExc.chipStackError code :=
  ⟨rfl, fun _ h => PyExc.noConfusion h⟩

/-- C6 amended: every dispatcher operation invoked after `Shutdown` fails
fast by raising an exception caused by the cleared `None` fields (the
`with None:` failure for `Call`; an `AttributeError` on `None` for
`CallAsync`, `PostTaskOnChipThread` and the `CallAsyncWithCompleteCallback`
entry) rather than a dedicated `NotInitialized`/`SubmissionFailed` error,
and the task callback body is never invoked (`execCount = 0` on every
path). -/
theorem c6_after_shutdown_fails (st : ChipStackState V) (cb : Except E V)
    (postStatus : Nat) (timeoutMs : Option Nat) (pre : Bool) (evs : List WaitEv)
    (rt : Rat) :
    ChipStack.Call (ChipStack.Shutdown st).networkLockPresent
        (ChipStack.Shutdown st).libLoaded postStatus cb timeoutMs pre evs =
      { result := some (.error .noneCtxError), execCount := 0, refDelta := 0 } ∧
    ChipStack.CallAsync (ChipStack.Shutdown st).libLoaded postStatus cb timeoutMs rt =
      { result := some (.error .noneAttrError), execCount := 0, refDelta := 1 } ∧
    ChipStack.PostTaskOnChipThread (ChipStack.Shutdown st).libLoaded postStatus cb =
      { result := .error .noneAttrError, execCount := 0, refDelta := 1 } ∧
    (callAsyncWCCEntry (E := E) (ChipStack.Shutdown st)).2 = some .noneAttrError := by
  refine ⟨?_, ?_, ?_, ?_⟩ <;>
    simp [ChipStack.Call, ChipStack.CallAsync, ChipStack.PostTaskOnChipThread,
      callAsyncWCCEntry, ChipStack.Shutdown]

/-- C7 counterexample: `Wait(1000)` woken twice without completion passes
the full converted timeout (1 second) to the second `Condition.wait` as
well: the recorded list of passed timeouts is `[some 1, some 1]`, which is
not a strictly decreasing remaining budget.  This refutes the claim that
the wait loop passes the remaining (decreasing) timeout to each
condition-variable wait. -/
theorem c7_counterexample :
    ((AsyncCallableHandle.new (V := Nat) (E := Nat) (Except.ok 4)).Wait (some 1000)
        [WaitEv.spurious, WaitEv.spurious]).timeoutsPassed = [some 1, some 1] ∧
    decreasingTimeouts
        ((AsyncCallableHandle.new (V := Nat) (E := Nat) (Except.ok 4)).Wait (some 1000)
          [WaitEv.spurious, WaitEv.spurious]).timeoutsPassed = false := by
  have h1000 : ((1000 : Nat) : Rat) / 1000 = 1 := by norm_num
  have hts : ((AsyncCallableHandle.new (V := Nat) (E := Nat) (Except.ok 4)).Wait (some 1000)
      [WaitEv.spurious, WaitEv.spurious]).timeoutsPassed = [some 1, some 1] := by
    simp [AsyncCallableHandle.Wait, waitLoop, AsyncCallableHandle.new, h1000]
  refine ⟨hts, ?_⟩
  rw [hts]
  simp [decreasingTimeouts]

/-- C7 amended: for a finite `timeoutMs`, the wait loop passes the same
full converted timeout (`timeoutMs / 1000` seconds) to every
condition-variable wait, not a decreasing remainder (the recorded list of
passed timeouts is a constant list); a condition-variable wait that returns
false makes `Wait` raise `TimeoutError`; when the completion flag is set,
`Wait` immediately returns the stored result or re-raises the stored
failure; and the `TimeoutError` path does not free the handle: after `Call`
raises `TimeoutError` the extra reference taken at submission is still held
and the callback has not run. -/
theorem c7_wait_passes_full_timeout (h : AsyncCallableHandle V E)
    (timeoutMs tms : Nat) (evs evs2 evs3 : List WaitEv) (cb : Except E V)
    (tmo : Option Nat) :
    (h.Wait (some timeoutMs) evs).timeoutsPassed =
      List.replicate (h.Wait (some timeoutMs) evs).timeoutsPassed.length
        (some ((timeoutMs : Rat) / 1000)) ∧
    (AsyncCallableHandle.new cb).Wait (some tms) (WaitEv.timedOut :: evs2) =
      { result := some (.error .timeoutError),
        timeoutsPassed := [some ((tms : Rat) / 1000)], trampolineRuns := 0 } ∧
    (AsyncCallableHandle.call (AsyncCallableHandle.new cb)).Wait tmo evs3 =
      { result := some (finishObserve (AsyncCallableHandle.call (AsyncCallableHandle.new cb))),
        timeoutsPassed := [], trampolineRuns := 0 } ∧
    (ChipStack.Call true true 0 cb (some tms) false [WaitEv.timedOut]).result =
      some (.error .timeoutError) ∧
    (ChipStack.Call true true 0 cb (some tms) false [WaitEv.timedOut]).execCount = 0 ∧
    (ChipStack.Call true true 0 cb (some tms) false [WaitEv.timedOut]).refDelta = 1 := by
  refine ⟨?_, ?_, ?_, ?_, ?_, ?_⟩
  · simpa [AsyncCallableHandle.Wait] using waitLoop_timeouts_const _ h evs
  · simp [AsyncCallableHandle.Wait, waitLoop, AsyncCallableHandle.new]
  · exact waitLoop_finished _ _ _ (AsyncCallableHandle.call_finish _)
  · simp [ChipStack.Call, ChipStack.PostTaskOnChipThread, AsyncCallableHandle.Wait,
      waitLoop, AsyncCallableHandle.new]
  · simp [ChipStack.Call, ChipStack.PostTaskOnChipThread, AsyncCallableHandle.Wait,
      waitLoop, AsyncCallableHandle.new]
  · simp [ChipStack.Call, ChipStack.PostTaskOnChipThread, AsyncCallableHandle.Wait,
      waitLoop, AsyncCallableHandle.new]

/-- C8: in the `AwaitCompletion` phase of `CallAsyncWithCompleteCallback`,
every executed loop iteration invokes the registered blocking callback
exactly once (zero times when none is registered) and then waits on the
completion event for the 0.05-second poll interval; the loop exits exactly
when a guard check observes the event set, and it enforces no overall
timeout (an all-unset schedule of any length `n` yields exactly `n`
iterations and no error); after the event is set, a stored
`ChipStackException` failure is raised and any other stored value is
returned. -/
theorem c8_await_completion_loop (blockingCB : Bool) (checks rest : List Bool)
    (n : Nat) (v : V) (code : Nat) :
    awaitCompletion blockingCB checks =
      List.replicate (awaitCompletion blockingCB checks).length
        ((if blockingCB then 1 else 0), (1 / 20 : Rat)) ∧
    awaitCompletion blockingCB (true :: rest) = [] ∧
    (awaitCompletion blockingCB (List.replicate n false)).length = n ∧
    awaitResult (V := V) (E := E) (.stackExc code) = .error (.chipStackError code) ∧
    awaitResult (V := V) (E := E) (.value v) = .ok (.value v) ∧
    awaitResult (V := V) (E := E) .pyNone = .ok .pyNone :=
  ⟨awaitCompletion_const _ _, by simp [awaitCompletion],
    awaitCompletion_false_length _ _, rfl, rfl, rfl⟩

/-- C9: constructing the singleton a second time (with any argument)
returns the very instance created by the first construction, the later
constructor arguments are ignored and the cached state is unchanged by the
repeated construction; instantiated on the tracked `ChipStack` constructor
state, a second construction with a different `enableServerInteractions`
argument still returns the first instance unchanged. -/
theorem c9_singleton_reuse {Args Inst : Type} (mk : Args → Inst) (a1 a2 : Args) :
    (singletonWrapper mk (singletonWrapper mk none a1).2 a2).1 =
      (singletonWrapper mk none a1).1 ∧
    (singletonWrapper mk (singletonWrapper mk none a1).2 a2).2 =
      (singletonWrapper mk none a1).2 ∧
    (singletonWrapper mk none a1).1 = mk a1 ∧
    (singletonWrapper (fun b : Bool => ChipStack.init (V := V) b)
        (singletonWrapper (fun b : Bool => ChipStack.init (V := V) b) none true).2
        false).1 = ChipStack.init (V := V) true :=
  ⟨rfl, rfl, rfl, rfl⟩

/-- C10: `CallAsync` with `timeoutMs = 0` enforces no timeout at all:
Python truthiness turns `0` into `None` in the expression
`timeoutMs / 1000 if timeoutMs else None`, so the await waits indefinitely
for the future and can never raise `TimeoutError` -- the result is the
resolution of the future whatever the resolve time -- unlike any strictly
positive `timeoutMs`, which bounds the wait and yields `TimeoutError` when
the future resolves later than the bound. -/
theorem c10_zero_timeout_means_no_timeout (cb : Except E V) (rt : Rat) (t : Nat) :
    callAsyncWaitTimeout (some 0) = none ∧
    callAsyncWaitTimeout none = none ∧
    callAsyncWaitTimeout (some (t + 1)) = some (((t + 1 : Nat) : Rat) / 1000) ∧
    ChipStack.CallAsync true 0 cb (some 0) rt = ChipStack.CallAsync true 0 cb none rt ∧
    (ChipStack.CallAsync true 0 cb (some 0) rt).result =
      some (match cb with
        | .ok v => .ok (some v)
        | .error e => .error (.userExc e)) ∧
    (ChipStack.CallAsync true 0 cb (some (t + 1))
        (((t + 1 : Nat) : Rat) / 1000 + 1)).result =
      some (.error .timeoutError) := by
  refine ⟨rfl, rfl, by simp [callAsyncWaitTimeout], rfl, ?_, ?_⟩
  · cases cb <;>
      simp [ChipStack.CallAsync, waitFor, callAsyncWaitTimeout,
        AsyncioCallableHandle.call, AsyncioCallableHandle.new, AsyncioCallableHandle.done]
  · have hlt : ¬ (((t + 1 : Nat) : Rat) / 1000 + 1 ≤ ((t + 1 : Nat) : Rat) / 1000) := by
      intro hc
      linarith
    cases cb <;>
      simp [ChipStack.CallAsync, waitFor, callAsyncWaitTimeout,
        AsyncioCallableHandle.call, AsyncioCallableHandle.new, AsyncioCallableHandle.done,
        hlt]

end ChipStackModel
